import Mathlib

/-!
Shallow embedding of the core reconciliation substrate of the
edp-keycloak-operator repository: ownership resolution, client
provisioning, the finalizer-based deletion protocol, the failure/backoff
tracker, and the per-kind reconcilers (realm component, auth flow,
client scope) that consume them.

Go `error` values are embedded as `Option String` (none = nil) or
`Except String α`; `errors.Wrap(err, msg)` produces the message
`msg ++ ": " ++ err`.  Remote/store lookups are embedded as explicit
function parameters, and the list of lookups actually performed is
returned alongside the result so that "no call is attempted" claims are
expressible.
-/

namespace helper

/-- A namespace-qualified object name (`types.NamespacedName`). -/
structure NamespacedName where
  ns : String
  name : String
deriving DecidableEq, Repr

/-- An entry of a child's owner-link list (`metav1.OwnerReference`),
carrying a kind and a name. -/
structure OwnerReference where
  kind : String
  name : String
deriving DecidableEq, Repr

/-- Modelled from the spec: the owner-link scan of the Ownership Resolver
(§4.1 step 1, `getKeycloakOwner` / the realm analogue in
controllers/helper, absent from src/): return the first owner reference
whose kind matches the expected parent kind. -/
def findOwnerRef (expectedKind : String) : List OwnerReference → Option OwnerReference
  | [] => none
  | r :: rest => if r.kind = expectedKind then some r else findOwnerRef expectedKind rest

/-- The `Keycloak` parent resource: connection scope with a connectivity
status flag and a credential (secret) reference. -/
structure Keycloak where
  ns : String
  name : String
  connected : Bool
  secret : String
deriving DecidableEq, Repr

/-- Spec of a `KeycloakRealm`: remote realm name plus the fallback
parent-name field `KeycloakOwner`. -/
structure KeycloakRealmSpec where
  realmName : String
  keycloakOwner : String
deriving DecidableEq, Repr

/-- The `KeycloakRealm` resource: child of a `Keycloak` (via owner links
or the spec fallback field) and parent of realm-scoped children. -/
structure KeycloakRealm where
  ns : String
  name : String
  ownerReferences : List OwnerReference
  spec : KeycloakRealmSpec
deriving DecidableEq, Repr

/-- Modelled from the spec: `Helper.GetOrCreateKeycloakOwnerRef`
(controllers/helper, absent from src/; behavior fixed by §4.1 and
TestHelper_GetOrCreateKeycloakOwnerRef{,_Failure}).  Resolve the realm's
owning `Keycloak`: prefer the first owner link of kind "Keycloak", else
the spec fallback `KeycloakOwner`; fail with the ownership error when
both are absent; otherwise fetch the parent from the store under
`(namespace-of-child, resolved-name)`, propagating fetch errors.  The
second component is the list of store lookups performed. -/
def GetOrCreateKeycloakOwnerRef (store : NamespacedName → Except String Keycloak)
    (realm : KeycloakRealm) : Except String Keycloak × List NamespacedName :=
  match findOwnerRef "Keycloak" realm.ownerReferences with
  | some o =>
      let nn : NamespacedName := ⟨realm.ns, o.name⟩
      (store nn, [nn])
  | none =>
      if realm.spec.keycloakOwner = "" then
        (Except.error ("keycloak owner is not specified neither in ownerReference nor in spec for realm "
          ++ realm.name), [])
      else
        let nn : NamespacedName := ⟨realm.ns, realm.spec.keycloakOwner⟩
        (store nn, [nn])

/-- A realm-scoped child resource as seen by the Ownership Resolver
(`helper.RealmChild`): owner links plus the spec-level fallback realm
name. -/
structure RealmChild where
  ns : String
  name : String
  ownerReferences : List OwnerReference
  parentRealmName : String
deriving DecidableEq, Repr

/-- Modelled from the spec: `Helper.GetOrCreateRealmOwnerRef`
(controllers/helper, absent from src/; behavior fixed by §4.1 and
TestHelper_GetOrCreateRealmOwnerRef{,_Failure}).  Resolve the child's
owning `KeycloakRealm`: prefer the first owner link of kind
"KeycloakRealm", else the spec fallback realm-name field; fail with an
ownership error when both are absent; otherwise fetch the parent from
the store, propagating fetch errors.  The second component is the list
of store lookups performed. -/
def GetOrCreateRealmOwnerRef (store : NamespacedName → Except String KeycloakRealm)
    (child : RealmChild) : Except String KeycloakRealm × List NamespacedName :=
  match findOwnerRef "KeycloakRealm" child.ownerReferences with
  | some o =>
      let nn : NamespacedName := ⟨child.ns, o.name⟩
      (store nn, [nn])
  | none =>
      if child.parentRealmName = "" then
        (Except.error ("realm owner is not specified neither in ownerReference nor in spec for "
          ++ child.name), [])
      else
        let nn : NamespacedName := ⟨child.ns, child.parentRealmName⟩
        (store nn, [nn])

/-- The slice of a resource the Deletion Terminator Protocol touches
(`helper.Deletable`): the deletion marker and the finalizer list. -/
structure Deletable where
  deletionTimestampSet : Bool
  finalizers : List String
deriving DecidableEq, Repr

/-- Finalizer-list removal: drop every occurrence of the token. -/
def removeString (l : List String) (s : String) : List String :=
  l.filter (fun x => x ≠ s)

/-- Modelled from the spec: `Helper.TryToDelete` (controllers/helper,
absent from src/; behavior fixed by §4.3 and TestHelper_TryToDelete).
The terminator's `DeleteResource` outcome is passed as
`deleteResourceResult` (`none` = success).  If the deletion marker is
unset, ensure the finalizer token is present and return `(false, nil)`;
if set, run the terminator: on failure keep the finalizer and return the
wrapped error, on success remove the token and return `(true, nil)`.
Result: (updated resource, deleted flag, error). -/
def TryToDelete (obj : Deletable) (deleteResourceResult : Option String)
    (finalizer : String) : Deletable × Bool × Option String :=
  if obj.deletionTimestampSet = false then
    if obj.finalizers.contains finalizer then
      (obj, false, none)
    else
      ({ obj with finalizers := obj.finalizers ++ [finalizer] }, false, none)
  else
    match deleteResourceResult with
    | some e => (obj, false, some ("error during keycloak resource deletion: " ++ e))
    | none => ({ obj with finalizers := removeString obj.finalizers finalizer }, true, none)

/-- The status value written on success (`helper.StatusOK`). -/
def statusOK : String := "OK"

/-- Modelled from the spec: the backoff delay of the Failure/Backoff
Tracker (§4.4, `SetFailureCount`'s timeout computation in
controllers/helper, absent from src/), in seconds: a deterministic
function of the failure counter, linear steps capped at a fixed
ceiling. -/
def failureDelay (failures : Nat) : Nat :=
  min (failures * 10) 3600

/-- Modelled from the spec: `Helper.SetFailureCount` (§4.4): increment
the per-resource failure counter and return (new counter, delay). -/
def SetFailureCount (failureCount : Nat) : Nat × Nat :=
  let failures := failureCount + 1
  (failures, failureDelay failures)

/-- The status fields the Failure/Backoff Tracker touches (§4.4): the
free-text value and the failure counter. -/
structure TrackedStatus where
  value : String
  failureCount : Nat
deriving DecidableEq, Repr

/-- Modelled from the spec: `recordFailure` (§4.4): increment the
counter, persist it into the status, return the status and the backoff
delay for the new counter. -/
def recordFailure (st : TrackedStatus) : TrackedStatus × Nat :=
  ({ st with failureCount := (SetFailureCount st.failureCount).1 },
    (SetFailureCount st.failureCount).2)

/-- Modelled from the spec: `SetSuccessStatus` / `recordSuccess` (§4.4):
on success reset the counter to zero and replace the status error
message with the OK value. -/
def SetSuccessStatus (_st : TrackedStatus) : TrackedStatus :=
  { value := statusOK, failureCount := 0 }

/-- An authenticated session scoped to one parent (the Client Handle of
§3): the bearer token and the remote service base address. -/
structure ClientHandle where
  token : String
  baseURL : String
deriving DecidableEq, Repr

/-- The environment one provisioning call observes: the parent's
connectivity flag, the outcome of resolving its credential secret, the
cached token object (if any), and the outcome of a fresh authentication
handshake were one performed. -/
structure ProvisionEnv where
  connected : Bool
  baseURL : String
  secretLookup : Except String String
  cachedToken : Option String
  handshake : Except String String
deriving Repr

/-- Modelled from the spec: `Helper.CreateKeycloakClientForRealm`'s
client-provisioning core (controllers/helper, absent from src/;
behavior fixed by §4.2 and TestHelper_CreateKeycloakClient).  Require
the parent connected; resolve the credential secret; use the cached
token when present, else perform the authentication handshake, wrapping
a handshake failure as "could not get token: ...". -/
def CreateKeycloakClientForRealm (env : ProvisionEnv) : Except String ClientHandle :=
  if env.connected = false then
    Except.error "keycloak is not connected"
  else
    match env.secretLookup with
    | Except.error e => Except.error ("unable to get keycloak secret: " ++ e)
    | Except.ok _ =>
      match env.cachedToken with
      | some tok => Except.ok ⟨tok, env.baseURL⟩
      | none =>
        match env.handshake with
        | Except.error e => Except.error ("could not get token: " ++ e)
        | Except.ok tok => Except.ok ⟨tok, env.baseURL⟩

end helper

namespace keycloakrealmcomponent

/-- `KeycloakComponentSpec` (the fields read by
`createKeycloakComponentFromSpec`). -/
structure KeycloakComponentSpec where
  name : String
  config : List (String × List String)
  providerID : String
  providerType : String
deriving DecidableEq, Repr

/-- The status block of a `KeycloakRealmComponent`. -/
structure KeycloakRealmComponentStatus where
  value : String
  failureCount : Nat
deriving DecidableEq, Repr

/-- The `KeycloakRealmComponent` resource. -/
structure KeycloakRealmComponent where
  deletionTimestampSet : Bool
  finalizers : List String
  spec : KeycloakComponentSpec
  status : KeycloakRealmComponentStatus
deriving DecidableEq, Repr

/-- `adapter.Component`: the remote-API model of a component. -/
structure Component where
  name : String
  config : List (String × List String)
  providerID : String
  providerType : String
  id : String
deriving DecidableEq, Repr

/-- Outcome of a remote get: success, a typed not-found error, or any
other error (`adapter.IsErrNotFound` distinguishes the middle case). -/
inductive RemoteResult (α : Type) where
  | ok (a : α)
  | notFound (msg : String)
  | error (msg : String)

/-- The Remote API Adapter for components, embedded as response
functions (`keycloak.Client`); `Option String` results: none =
success. -/
structure KClient where
  getComponent : String → String → RemoteResult Component
  updateComponent : String → Component → Option String
  createComponent : String → Component → Option String
  deleteComponent : String → String → Option String

/-- One remote adapter call performed during a reconciliation. -/
inductive RemoteCall where
  | getComponent (realmName componentName : String)
  | updateComponent (realmName : String) (c : Component)
  | createComponent (realmName : String) (c : Component)
  | deleteComponent (realmName componentName : String)
deriving DecidableEq, Repr

/-- The helper interface as one reconciliation observes it: outcomes of
parent resolution, client provisioning and the status write. -/
structure HelperDeps where
  getOrCreateRealmOwnerRef : Except String helper.KeycloakRealm
  createKeycloakClientForRealm : Except String KClient
  updateStatusError : Option String

/-- The finalizer token of this reconciler (`const finalizerName`). -/
def finalizerName : String := "keycloak.realmcomponent.operator.finalizer.name"

/-- `createKeycloakComponentFromSpec`: build the remote component model
from the resource's spec. -/
def createKeycloakComponentFromSpec (spec : KeycloakComponentSpec) : Component :=
  { name := spec.name
    config := spec.config
    providerID := spec.providerID
    providerType := spec.providerType
    id := "" }

/-- `Reconcile.tryReconcile`: resolve the realm owner, provision the
client, get-then-update or create the remote component, then run the
deletion protocol with a terminator that deletes the remote component.
Returns (error, instance after finalizer changes, remote calls
performed). -/
def tryReconcile (h : HelperDeps) (inst : KeycloakRealmComponent) :
    Option String × KeycloakRealmComponent × List RemoteCall :=
  match h.getOrCreateRealmOwnerRef with
  | Except.error e => (some ("unable to get realm owner ref: " ++ e), inst, [])
  | Except.ok realm =>
    match h.createKeycloakClientForRealm with
    | Except.error e => (some ("unable to create keycloak client: " ++ e), inst, [])
    | Except.ok kClient =>
      let keycloakComponent := createKeycloakComponentFromSpec inst.spec
      let rn := realm.spec.realmName
      let getCall := RemoteCall.getComponent rn inst.spec.name
      let afterSync : List RemoteCall → Option String × KeycloakRealmComponent × List RemoteCall :=
        fun trace =>
          let d : helper.Deletable := ⟨inst.deletionTimestampSet, inst.finalizers⟩
          let td := helper.TryToDelete d (kClient.deleteComponent rn inst.spec.name) finalizerName
          let inst1 := { inst with finalizers := td.1.finalizers }
          let trace1 := trace ++
            (if inst.deletionTimestampSet then [RemoteCall.deleteComponent rn inst.spec.name] else [])
          match td.2.2 with
          | some e => (some ("unable to tryToDelete realm component: " ++ e), inst1, trace1)
          | none => (none, inst1, trace1)
      match kClient.getComponent rn inst.spec.name with
      | RemoteResult.ok cmp =>
        let kc := { keycloakComponent with id := cmp.id }
        match kClient.updateComponent rn kc with
        | some e => (some ("unable to update component: " ++ e), inst,
            [getCall, RemoteCall.updateComponent rn kc])
        | none => afterSync [getCall, RemoteCall.updateComponent rn kc]
      | RemoteResult.notFound _ =>
        match kClient.createComponent rn keycloakComponent with
        | some e => (some ("unable to create component: " ++ e), inst,
            [getCall, RemoteCall.createComponent rn keycloakComponent])
        | none => afterSync [getCall, RemoteCall.createComponent rn keycloakComponent]
      | RemoteResult.error e => (some ("unable to get component, unexpected error: " ++ e), inst,
          [getCall])

/-- Outcome of the initial store read of the instance. -/
inductive GetInstanceResult where
  | ok (inst : KeycloakRealmComponent)
  | notFound
  | error (msg : String)

/-- What one `Reconcile` call produces: the requeue delay, the returned
error, the instance as last written (status and finalizers), and the
remote calls performed. -/
structure ReconcileOutput where
  requeueAfter : Nat
  resultErr : Option String
  finalInstance : Option KeycloakRealmComponent
  trace : List RemoteCall

/-- `Reconcile.Reconcile`: read the instance (not-found ends silently;
other read errors are returned wrapped); run `tryReconcile`; on sync
failure write the error into the status value, increment the failure
counter and requeue after the backoff delay, on success set the OK
status and requeue after the success timeout; finally the status write,
whose failure alone (after a successful read) becomes the returned
error. -/
def Reconcile (getInstance : GetInstanceResult) (h : HelperDeps)
    (successReconcileTimeout : Nat) : ReconcileOutput :=
  match getInstance with
  | GetInstanceResult.notFound => ⟨0, none, none, []⟩
  | GetInstanceResult.error e =>
      ⟨0, some ("unable to get keycloak realm component from k8s: " ++ e), none, []⟩
  | GetInstanceResult.ok inst0 =>
    let tr := tryReconcile h inst0
    let inst1 := tr.2.1
    let step : KeycloakRealmComponent × Nat :=
      match tr.1 with
      | some e =>
        let fc := (helper.SetFailureCount inst1.status.failureCount).1
        ({ inst1 with status := { value := e, failureCount := fc } },
          (helper.SetFailureCount inst1.status.failureCount).2)
      | none =>
        ({ inst1 with status := { value := helper.statusOK, failureCount := 0 } },
          successReconcileTimeout)
    let resultErr : Option String :=
      match h.updateStatusError with
      | some ue => some ("unable to update status: " ++ ue)
      | none => none
    ⟨step.2, resultErr, some step.1, tr.2.2⟩

end keycloakrealmcomponent

namespace keycloakauthflow

/-- `adapter.AuthenticatorConfig` / the spec's authenticator config:
alias plus a string-to-string config map. -/
structure AuthenticatorConfig where
  alias' : String
  config : List (String × String)
deriving DecidableEq, Repr

/-- One authentication execution of an auth flow spec. -/
structure AuthenticationExecution where
  authenticator : String
  requirement : String
  priority : Nat
  authenticatorFlow : Bool
  authenticatorConfig : Option AuthenticatorConfig
deriving DecidableEq, Repr

/-- `KeycloakAuthFlowSpec`: the declarative auth flow description.
`reflect.DeepEqual` on this value type is structural equality. -/
structure KeycloakAuthFlowSpec where
  realm : String
  alias' : String
  description : String
  builtIn : Bool
  providerID : String
  topLevel : Bool
  authenticationExecutions : List AuthenticationExecution
deriving DecidableEq, Repr

/-- The `KeycloakAuthFlow` object as the update predicate sees it: its
spec and whether the deletion timestamp is set (`IsZero` negated). -/
structure KeycloakAuthFlow where
  spec : KeycloakAuthFlowSpec
  deletionTimestampSet : Bool
deriving DecidableEq, Repr

/-- `isSpecUpdated` (pkg/controller/keycloakauthflow/controller.go):
an update event passes the predicate when the old and new specs differ
under deep equality, or the deletion timestamp goes from unset to
set. -/
def isSpecUpdated (oo no : KeycloakAuthFlow) : Bool :=
  (if oo.spec = no.spec then false else true) ||
    (!oo.deletionTimestampSet && no.deletionTimestampSet)

end keycloakauthflow

namespace keycloakclientscope

/-- A protocol mapper of a client scope spec. -/
structure ProtocolMapper where
  name : String
  protocol : String
  protocolMapper : String
  config : List (String × String)
deriving DecidableEq, Repr

/-- `KeycloakClientScopeSpec`: remote scope name, owning realm, and
protocol mappers. -/
structure KeycloakClientScopeSpec where
  name : String
  realm : String
  description : String
  protocol : String
  attributes : List (String × String)
  defaultScope : Bool
  protocolMappers : List ProtocolMapper
deriving DecidableEq, Repr

/-- The status block of a `KeycloakClientScope`: the stored remote id
plus the shared value/failure-count pair. -/
structure KeycloakClientScopeStatus where
  id : String
  value : String
  failureCount : Nat
deriving DecidableEq, Repr

/-- The `KeycloakClientScope` resource. -/
structure KeycloakClientScope where
  name : String
  ns : String
  deletionTimestampSet : Bool
  finalizers : List String
  spec : KeycloakClientScopeSpec
  status : KeycloakClientScopeStatus
deriving DecidableEq, Repr

/-- `adapter.ClientScope`: the remote-API model of a client scope. -/
structure ClientScope where
  id : String
  name : String
  description : String
  protocol : String
  attributes : List (String × String)
  protocolMappers : List ProtocolMapper
deriving DecidableEq, Repr

/-- The Remote API Adapter for client scopes, embedded as response
functions: get by (name, realm), create returning the new id, update,
delete. -/
structure KClient where
  getClientScope : String → String → keycloakrealmcomponent.RemoteResult ClientScope
  createClientScope : String → ClientScope → Except String String
  updateClientScope : String → String → ClientScope → Option String
  deleteClientScope : String → String → Option String

/-- The helper interface as one client-scope reconciliation observes
it. -/
structure HelperDeps where
  getOrCreateRealmOwnerRef : Except String helper.KeycloakRealm
  createKeycloakClientForRealm : Except String KClient
  updateStatusError : Option String

/-- The finalizer token of this reconciler. -/
def finalizerName : String := "keycloak.clientscope.operator.finalizer.name"

/-- `convertProtocolMappers`: map the spec's protocol mappers to the
adapter model (identity on the embedded fields). -/
def convertProtocolMappers (mappers : List ProtocolMapper) : List ProtocolMapper :=
  mappers.map (fun m => ⟨m.name, m.protocol, m.protocolMapper, m.config⟩)

/-- Modelled from the spec: the client-scope controller's desired remote
model (controllers/keycloakclientscope, absent from src/; fixed by
TestReconcile_Reconcile and TestSyncClientScope). -/
def clientScopeFromSpec (spec : KeycloakClientScopeSpec) : ClientScope :=
  { id := ""
    name := spec.name
    description := spec.description
    protocol := spec.protocol
    attributes := spec.attributes
    protocolMappers := convertProtocolMappers spec.protocolMappers }

/-- Modelled from the spec: `syncClientScope` (controllers/
keycloakclientscope, absent from src/; fixed by §8 scenario and
TestReconcile_Reconcile / TestSyncClientScope, structured after the
get/create/update block of the realm-component `tryReconcile`): look
the scope up remotely; on not-found create it and take the returned id,
on success update it under the existing id; return the id. -/
def syncClientScope (inst : KeycloakClientScope) (realm : helper.KeycloakRealm)
    (kClient : KClient) : Except String String :=
  let desired := clientScopeFromSpec inst.spec
  let rn := realm.spec.realmName
  match kClient.getClientScope inst.spec.name rn with
  | keycloakrealmcomponent.RemoteResult.ok scope =>
    match kClient.updateClientScope rn scope.id desired with
    | some e => Except.error ("unable to update client scope: " ++ e)
    | none => Except.ok scope.id
  | keycloakrealmcomponent.RemoteResult.notFound _ =>
    match kClient.createClientScope rn desired with
    | Except.error e => Except.error ("unable to create client scope: " ++ e)
    | Except.ok id => Except.ok id
  | keycloakrealmcomponent.RemoteResult.error e =>
    Except.error ("unable to get client scope, unexpected error: " ++ e)

/-- Modelled from the spec: the client-scope `tryReconcile`
(controllers/keycloakclientscope, absent from src/; fixed by
TestReconcile_Reconcile): resolve the realm owner, provision the
client, sync the scope, store the returned id in the status, then run
the deletion protocol with a terminator deleting the scope by id.
Returns (error, instance after status-id/finalizer changes). -/
def tryReconcile (h : HelperDeps) (inst : KeycloakClientScope) :
    Option String × KeycloakClientScope :=
  match h.getOrCreateRealmOwnerRef with
  | Except.error e => (some ("unable to get realm owner ref: " ++ e), inst)
  | Except.ok realm =>
    match h.createKeycloakClientForRealm with
    | Except.error e => (some ("unable to create keycloak client: " ++ e), inst)
    | Except.ok kClient =>
      match syncClientScope inst realm kClient with
      | Except.error e => (some ("unable to sync client scope: " ++ e), inst)
      | Except.ok id =>
        let inst1 := { inst with status := { inst.status with id := id } }
        let d : helper.Deletable := ⟨inst1.deletionTimestampSet, inst1.finalizers⟩
        let td := helper.TryToDelete d
          (kClient.deleteClientScope realm.spec.realmName id) finalizerName
        let inst2 := { inst1 with finalizers := td.1.finalizers }
        match td.2.2 with
        | some e => (some ("unable to tryToDelete client scope: " ++ e), inst2)
        | none => (none, inst2)

/-- Outcome of the initial store read of the client scope instance. -/
inductive GetInstanceResult where
  | ok (inst : KeycloakClientScope)
  | notFound
  | error (msg : String)

/-- What one client-scope `Reconcile` call produces. -/
structure ReconcileOutput where
  requeueAfter : Nat
  resultErr : Option String
  finalInstance : Option KeycloakClientScope

/-- Modelled from the spec: the client-scope `Reconcile`
(controllers/keycloakclientscope, absent from src/; fixed by
TestReconcile_Reconcile and structured after the realm-component
`Reconcile`): read the instance, run `tryReconcile`, on failure record
the error in the status and back off, on success set the OK status and
requeue after the success timeout, then write the status. -/
def Reconcile (getInstance : GetInstanceResult) (h : HelperDeps)
    (successReconcileTimeout : Nat) : ReconcileOutput :=
  match getInstance with
  | GetInstanceResult.notFound => ⟨0, none, none⟩
  | GetInstanceResult.error e =>
      ⟨0, some ("unable to get keycloak client scope from k8s: " ++ e), none⟩
  | GetInstanceResult.ok inst0 =>
    let tr := tryReconcile h inst0
    let inst1 := tr.2
    let step : KeycloakClientScope × Nat :=
      match tr.1 with
      | some e =>
        let fc := (helper.SetFailureCount inst1.status.failureCount).1
        ({ inst1 with status := { inst1.status with value := e, failureCount := fc } },
          (helper.SetFailureCount inst1.status.failureCount).2)
      | none =>
        ({ inst1 with status := { inst1.status with value := helper.statusOK, failureCount := 0 } },
          successReconcileTimeout)
    let resultErr : Option String :=
      match h.updateStatusError with
      | some ue => some ("unable to update status: " ++ ue)
      | none => none
    ⟨step.2, resultErr, some step.1⟩

end keycloakclientscope

namespace keycloakclientscope

/-- The client scope of TestReconcile_Reconcile: meta name "scope1",
spec name "scope1name", owned by realm "test" in namespace
"security". -/
def testClientScope : KeycloakClientScope :=
  { name := "scope1"
    ns := "security"
    deletionTimestampSet := false
    finalizers := []
    spec := { name := "scope1name", realm := "test", description := "", protocol := ""
              attributes := [], defaultScope := false, protocolMappers := [] }
    status := { id := "", value := "", failureCount := 0 } }

/-- The owning realm of that scenario, remote realm name "ns.test". -/
def testRealm : helper.KeycloakRealm :=
  { ns := "security"
    name := "test"
    ownerReferences := [⟨"Keycloak", "test"⟩]
    spec := { realmName := "ns.test", keycloakOwner := "" } }

/-- The remote adapter of that scenario: scope lookup answers a typed
not-found, create returns the new id "scope12". -/
def testKClient : KClient :=
  { getClientScope := fun _ _ => keycloakrealmcomponent.RemoteResult.notFound "not found"
    createClientScope := fun _ _ => Except.ok "scope12"
    updateClientScope := fun _ _ _ => some "unexpected update"
    deleteClientScope := fun _ _ => none }

/-- The helper outcomes of that scenario: owner resolution yields the
realm, provisioning yields the adapter, the status write succeeds. -/
def testHelperDeps : HelperDeps :=
  { getOrCreateRealmOwnerRef := Except.ok testRealm
    createKeycloakClientForRealm := Except.ok testKClient
    updateStatusError := none }

end keycloakclientscope

/-! ## Shared lemmas -/

/-- `findOwnerRef` returns the first entry of matching kind: on a list
split as `pre ++ r :: post` with nothing matching in `pre` and `r`
matching, it returns `r`. -/
theorem helper.findOwnerRef_first_match (k : String) (pre : List helper.OwnerReference)
    (r : helper.OwnerReference) (post : List helper.OwnerReference)
    (hpre : ∀ x ∈ pre, x.kind ≠ k) (hr : r.kind = k) :
    helper.findOwnerRef k (pre ++ r :: post) = some r := by
  induction pre with
  | nil => simp [helper.findOwnerRef, hr]
  | cons a rest ih =>
    have ha : a.kind ≠ k := hpre a (by simp)
    simp only [List.cons_append, helper.findOwnerRef, if_neg ha]
    exact ih fun x hx => hpre x (by simp [hx])

/-! ## Claim theorems -/

/-- C10: the update-event predicate `isSpecUpdated` returns true exactly
when the old and new specs differ under deep equality or the deletion
timestamp transitions from unset to set; in particular an update event
carrying the same object as old and new returns false. -/
theorem C10_isSpecUpdated_iff :
    (∀ oo no : keycloakauthflow.KeycloakAuthFlow,
       keycloakauthflow.isSpecUpdated oo no = true ↔
         (oo.spec ≠ no.spec ∨
           (oo.deletionTimestampSet = false ∧ no.deletionTimestampSet = true))) ∧
    (∀ o : keycloakauthflow.KeycloakAuthFlow, keycloakauthflow.isSpecUpdated o o = false) := by
  constructor
  · intro oo no
    unfold keycloakauthflow.isSpecUpdated
    by_cases h : oo.spec = no.spec
    · simp only [h, if_pos rfl, ne_eq, not_true_eq_false, false_or, Bool.false_or]
      cases hoo : oo.deletionTimestampSet <;> cases hno : no.deletionTimestampSet <;> simp
    · simp [h]
  · intro o
    unfold keycloakauthflow.isSpecUpdated
    simp

/-- C5: the backoff delay is a deterministic function of the failure
counter (`recordFailure`'s delay depends only on the counter value),
monotonically non-decreasing in the counter, bounded above by the fixed
ceiling 3600; and `recordFailure` followed immediately by
`recordSuccess` (`SetSuccessStatus`) resets the counter to zero and
clears the status error message to the OK value. -/
theorem C5_backoff_tracker :
    (∀ st st' : helper.TrackedStatus, st.failureCount = st'.failureCount →
       (helper.recordFailure st).2 = (helper.recordFailure st').2) ∧
    (∀ m n : Nat, m ≤ n → helper.failureDelay m ≤ helper.failureDelay n) ∧
    (∀ n : Nat, helper.failureDelay n ≤ 3600) ∧
    (∀ st : helper.TrackedStatus,
       helper.SetSuccessStatus (helper.recordFailure st).1 =
         { value := helper.statusOK, failureCount := 0 } ∧
       (helper.recordFailure st).1.failureCount = st.failureCount + 1) := by
  refine ⟨?_, ?_, ?_, ?_⟩
  · intro st st' h
    simp [helper.recordFailure, helper.SetFailureCount, h]
  · intro m n h
    unfold helper.failureDelay
    exact min_le_min (Nat.mul_le_mul_right 10 h) le_rfl
  · intro n
    exact min_le_right _ _
  · intro st
    exact ⟨rfl, rfl⟩

/-- C5 witness: concrete instantiation of the tracker properties. -/
theorem C5_backoff_tracker_witness :
    ((helper.recordFailure ⟨"errA", 7⟩).2 = (helper.recordFailure ⟨"errB", 7⟩).2) ∧
    (2 ≤ 5 ∧ helper.failureDelay 2 ≤ helper.failureDelay 5) ∧
    helper.failureDelay 1000 ≤ 3600 ∧
    helper.SetSuccessStatus (helper.recordFailure ⟨"some error", 4⟩).1 =
      { value := helper.statusOK, failureCount := 0 } :=
  ⟨C5_backoff_tracker.1 ⟨"errA", 7⟩ ⟨"errB", 7⟩ rfl,
   ⟨by decide, C5_backoff_tracker.2.1 2 5 (by decide)⟩,
   C5_backoff_tracker.2.2.1 1000,
   (C5_backoff_tracker.2.2.2 ⟨"some error", 4⟩).1⟩

/-- C4: with the deletion marker set and the terminator failing with
"delete resource fatal", `TryToDelete` returns the error whose message
is exactly "error during keycloak resource deletion: delete resource
fatal", and the finalizer token remains in the finalizer list. -/
theorem C4_delete_error_wrapped (obj : helper.Deletable) (fin : String)
    (hdel : obj.deletionTimestampSet = true)
    (hfin : fin ∈ obj.finalizers) :
    helper.TryToDelete obj (some "delete resource fatal") fin =
      (obj, false, some "error during keycloak resource deletion: delete resource fatal") ∧
    fin ∈ (helper.TryToDelete obj (some "delete resource fatal") fin).1.finalizers := by
  unfold helper.TryToDelete
  rw [hdel]
  simp only [Bool.true_eq_false, if_false]
  exact ⟨rfl, hfin⟩

/-- C4 witness: a terminating resource holding the token. -/
theorem C4_delete_error_wrapped_witness :
    (true = true ∧ "fin" ∈ ["fin", "other"]) ∧
    (helper.TryToDelete ⟨true, ["fin", "other"]⟩ (some "delete resource fatal") "fin" =
      (⟨true, ["fin", "other"]⟩, false,
        some "error during keycloak resource deletion: delete resource fatal") ∧
    "fin" ∈ (helper.TryToDelete ⟨true, ["fin", "other"]⟩
      (some "delete resource fatal") "fin").1.finalizers) :=
  ⟨⟨rfl, by decide⟩,
   C4_delete_error_wrapped ⟨true, ["fin", "other"]⟩ "fin" rfl (by decide)⟩

/-- C3: `TryToDelete` is idempotent.  On a resource whose deletion
marker is unset (holding at most one copy of the token, as finalizer
lists do), each call returns `(false, nil)` and after one or two calls
in sequence exactly one copy of the finalizer token is present, the
second call changing nothing.  On a resource whose deletion marker is
set, after a call whose remote delete succeeds the token is gone, and a
subsequent call (the terminator again reporting success, being
idempotent on "already absent") leaves the resource unchanged. -/
theorem C3_tryToDelete_idempotent :
    (∀ (obj : helper.Deletable) (d1 d2 : Option String) (fin : String),
       obj.deletionTimestampSet = false →
       obj.finalizers.count fin ≤ 1 →
       (helper.TryToDelete obj d1 fin).2 = (false, none) ∧
       (helper.TryToDelete obj d1 fin).1.finalizers.count fin = 1 ∧
       helper.TryToDelete (helper.TryToDelete obj d1 fin).1 d2 fin =
         ((helper.TryToDelete obj d1 fin).1, false, none)) ∧
    (∀ (obj : helper.Deletable) (fin : String),
       obj.deletionTimestampSet = true →
       (helper.TryToDelete obj none fin).2 = (true, none) ∧
       fin ∉ (helper.TryToDelete obj none fin).1.finalizers ∧
       helper.TryToDelete (helper.TryToDelete obj none fin).1 none fin =
         ((helper.TryToDelete obj none fin).1, true, none)) := by
  constructor
  · intro obj d1 d2 fin hdel hcount
    by_cases hmem : fin ∈ obj.finalizers
    · have hc : obj.finalizers.contains fin = true := by simpa using hmem
      have h1 : helper.TryToDelete obj d1 fin = (obj, false, none) := by
        unfold helper.TryToDelete
        rw [hdel]
        simp [hc, hmem]
      have hcount1 : obj.finalizers.count fin = 1 :=
        Nat.le_antisymm hcount (List.count_pos_iff.mpr hmem)
      refine ⟨by rw [h1], by rw [h1]; exact hcount1, ?_⟩
      rw [h1]
      unfold helper.TryToDelete
      rw [hdel]
      simp [hc, hmem]
    · have hc : obj.finalizers.contains fin = false := by
        simpa using hmem
      have h1 : helper.TryToDelete obj d1 fin =
          ({ obj with finalizers := obj.finalizers ++ [fin] }, false, none) := by
        unfold helper.TryToDelete
        rw [hdel]
        simp [hc, hmem]
      have hmem1 : fin ∈ obj.finalizers ++ [fin] := by simp
      have hc1 : (obj.finalizers ++ [fin]).contains fin = true := by simp
      refine ⟨by rw [h1], ?_, ?_⟩
      · rw [h1]
        simp [List.count_append, List.count_eq_zero.mpr hmem]
      · rw [h1]
        unfold helper.TryToDelete
        rw [hdel]
        simp [hc1, hmem1]
  · intro obj fin hdel
    have h1 : helper.TryToDelete obj none fin =
        ({ obj with finalizers := helper.removeString obj.finalizers fin }, true, none) := by
      unfold helper.TryToDelete
      rw [hdel]
      simp
    have hnotmem : fin ∉ helper.removeString obj.finalizers fin := by
      unfold helper.removeString
      simp
    have hfix : helper.removeString (helper.removeString obj.finalizers fin) fin =
        helper.removeString obj.finalizers fin := by
      unfold helper.removeString
      rw [List.filter_eq_self]
      intro b hb
      simp only [List.mem_filter, decide_eq_true_eq] at hb
      simpa using hb.2
    refine ⟨by rw [h1], by rw [h1]; exact hnotmem, ?_⟩
    rw [h1]
    unfold helper.TryToDelete
    rw [hdel]
    simp [hfix]

/-- C3 witness: an active resource without the token, and a terminating
resource holding it. -/
theorem C3_tryToDelete_idempotent_witness :
    ((false = false ∧ (["other"] : List String).count "fin" ≤ 1) ∧
      (helper.TryToDelete ⟨false, ["other"]⟩ none "fin").2 = (false, none) ∧
      (helper.TryToDelete ⟨false, ["other"]⟩ none "fin").1.finalizers.count "fin" = 1 ∧
      helper.TryToDelete (helper.TryToDelete ⟨false, ["other"]⟩ none "fin").1 none "fin" =
        ((helper.TryToDelete ⟨false, ["other"]⟩ none "fin").1, false, none)) ∧
    ((true = true) ∧
      (helper.TryToDelete ⟨true, ["fin"]⟩ none "fin").2 = (true, none) ∧
      "fin" ∉ (helper.TryToDelete ⟨true, ["fin"]⟩ none "fin").1.finalizers ∧
      helper.TryToDelete (helper.TryToDelete ⟨true, ["fin"]⟩ none "fin").1 none "fin" =
        ((helper.TryToDelete ⟨true, ["fin"]⟩ none "fin").1, true, none)) :=
  ⟨⟨⟨rfl, by decide⟩,
    C3_tryToDelete_idempotent.1 ⟨false, ["other"]⟩ none none "fin" rfl (by decide)⟩,
   ⟨rfl, C3_tryToDelete_idempotent.2 ⟨true, ["fin"]⟩ "fin" rfl⟩⟩

/-- C1: when a child carries both an owner link of the expected parent
kind and a non-empty spec fallback parent-name field, ownership
resolution uses the name of the first matching owner link — not the
fallback — and performs exactly one store fetch, under that name in the
child's namespace, whose outcome it returns.  Stated for both
`GetOrCreateKeycloakOwnerRef` (expected kind "Keycloak") and
`GetOrCreateRealmOwnerRef` (expected kind "KeycloakRealm"). -/
theorem C1_owner_link_preferred_over_fallback :
    (∀ (store : helper.NamespacedName → Except String helper.Keycloak)
       (realm : helper.KeycloakRealm)
       (pre post : List helper.OwnerReference) (r : helper.OwnerReference),
       realm.ownerReferences = pre ++ r :: post →
       (∀ x ∈ pre, x.kind ≠ "Keycloak") →
       r.kind = "Keycloak" →
       realm.spec.keycloakOwner ≠ "" →
       helper.GetOrCreateKeycloakOwnerRef store realm =
         (store ⟨realm.ns, r.name⟩, [⟨realm.ns, r.name⟩])) ∧
    (∀ (store : helper.NamespacedName → Except String helper.KeycloakRealm)
       (child : helper.RealmChild)
       (pre post : List helper.OwnerReference) (r : helper.OwnerReference),
       child.ownerReferences = pre ++ r :: post →
       (∀ x ∈ pre, x.kind ≠ "KeycloakRealm") →
       r.kind = "KeycloakRealm" →
       child.parentRealmName ≠ "" →
       helper.GetOrCreateRealmOwnerRef store child =
         (store ⟨child.ns, r.name⟩, [⟨child.ns, r.name⟩])) := by
  constructor
  · intro store realm pre post r hsplit hpre hr _hfb
    unfold helper.GetOrCreateKeycloakOwnerRef
    rw [hsplit, helper.findOwnerRef_first_match "Keycloak" pre r post hpre hr]
  · intro store child pre post r hsplit hpre hr _hfb
    unfold helper.GetOrCreateRealmOwnerRef
    rw [hsplit, helper.findOwnerRef_first_match "KeycloakRealm" pre r post hpre hr]

/-- C1 witness: children carrying a non-matching link, a matching link
and a non-empty fallback field resolve through the matching link's
name. -/
theorem C1_owner_link_preferred_over_fallback_witness :
    (([⟨"Deployment", "dep1"⟩, ⟨"Keycloak", "testOwnerReference"⟩] :
        List helper.OwnerReference) = [⟨"Deployment", "dep1"⟩] ++
          (⟨"Keycloak", "testOwnerReference"⟩ : helper.OwnerReference) :: [] ∧
     (∀ x ∈ ([⟨"Deployment", "dep1"⟩] : List helper.OwnerReference), x.kind ≠ "Keycloak") ∧
     ("testSpec" : String) ≠ "" ∧
     helper.GetOrCreateKeycloakOwnerRef
       (fun nn => Except.ok ⟨nn.ns, nn.name, true, "ss1"⟩)
       ⟨"test", "myrealm", [⟨"Deployment", "dep1"⟩, ⟨"Keycloak", "testOwnerReference"⟩],
         ⟨"ns.test", "testSpec"⟩⟩ =
       (Except.ok ⟨"test", "testOwnerReference", true, "ss1"⟩,
         [⟨"test", "testOwnerReference"⟩])) ∧
    (helper.GetOrCreateRealmOwnerRef
       (fun nn => Except.ok ⟨nn.ns, nn.name, [], ⟨"rn", ""⟩⟩)
       ⟨"test", "group1", [⟨"KeycloakRealm", "foo"⟩], "foo13"⟩ =
       (Except.ok ⟨"test", "foo", [], ⟨"rn", ""⟩⟩, [⟨"test", "foo"⟩])) :=
  ⟨⟨rfl, by decide, by decide,
    C1_owner_link_preferred_over_fallback.1
      (fun nn => Except.ok ⟨nn.ns, nn.name, true, "ss1"⟩)
      ⟨"test", "myrealm", [⟨"Deployment", "dep1"⟩, ⟨"Keycloak", "testOwnerReference"⟩],
        ⟨"ns.test", "testSpec"⟩⟩
      [⟨"Deployment", "dep1"⟩] [] ⟨"Keycloak", "testOwnerReference"⟩
      rfl (by decide) rfl (by decide)⟩,
   C1_owner_link_preferred_over_fallback.2
      (fun nn => Except.ok ⟨nn.ns, nn.name, [], ⟨"rn", ""⟩⟩)
      ⟨"test", "group1", [⟨"KeycloakRealm", "foo"⟩], "foo13"⟩
      [] [] ⟨"KeycloakRealm", "foo"⟩
      rfl (by simp) rfl (by decide)⟩

/-- C2: when a child has neither an owner link of the expected parent
kind (a link of a non-matching kind such as "Deployment" does not
count) nor a non-empty spec fallback parent-name field, ownership
resolution fails — for realms with the exact cause "keycloak owner is
not specified neither in ownerReference nor in spec for realm " followed
by the realm's name — and performs no store lookup (the lookup trace is
empty, for every store). -/
theorem C2_no_owner_no_fallback_fails :
    (∀ (store : helper.NamespacedName → Except String helper.Keycloak)
       (realm : helper.KeycloakRealm),
       (∀ x ∈ realm.ownerReferences, x.kind ≠ "Keycloak") →
       realm.spec.keycloakOwner = "" →
       helper.GetOrCreateKeycloakOwnerRef store realm =
         (Except.error
           ("keycloak owner is not specified neither in ownerReference nor in spec for realm "
             ++ realm.name), [])) ∧
    (∀ (store : helper.NamespacedName → Except String helper.KeycloakRealm)
       (child : helper.RealmChild),
       (∀ x ∈ child.ownerReferences, x.kind ≠ "KeycloakRealm") →
       child.parentRealmName = "" →
       helper.GetOrCreateRealmOwnerRef store child =
         (Except.error
           ("realm owner is not specified neither in ownerReference nor in spec for "
             ++ child.name), [])) := by
  have hnone : ∀ (k : String) (l : List helper.OwnerReference),
      (∀ x ∈ l, x.kind ≠ k) → helper.findOwnerRef k l = none := by
    intro k l
    induction l with
    | nil => intro _; rfl
    | cons a rest ih =>
      intro h
      have ha : a.kind ≠ k := h a (by simp)
      simp only [helper.findOwnerRef, if_neg ha]
      exact ih fun x hx => h x (by simp [hx])
  constructor
  · intro store realm hrefs hfb
    unfold helper.GetOrCreateKeycloakOwnerRef
    rw [hnone "Keycloak" realm.ownerReferences hrefs]
    simp [hfb]
  · intro store child hrefs hfb
    unfold helper.GetOrCreateRealmOwnerRef
    rw [hnone "KeycloakRealm" child.ownerReferences hrefs]
    simp [hfb]

/-- C2 witness: a realm with only a "Deployment" owner link, an empty
fallback field and an empty name yields exactly the quoted error and an
empty lookup trace; likewise for a realm child. -/
theorem C2_no_owner_no_fallback_fails_witness :
    ((∀ x ∈ ([⟨"Deployment", "foo"⟩] : List helper.OwnerReference), x.kind ≠ "Keycloak") ∧
     helper.GetOrCreateKeycloakOwnerRef
       (fun nn => Except.ok ⟨nn.ns, nn.name, true, "ss1"⟩)
       ⟨"test", "", [⟨"Deployment", "foo"⟩], ⟨"", ""⟩⟩ =
       (Except.error
         "keycloak owner is not specified neither in ownerReference nor in spec for realm ",
         [])) ∧
    helper.GetOrCreateRealmOwnerRef
       (fun nn => Except.ok ⟨nn.ns, nn.name, [], ⟨"rn", ""⟩⟩)
       ⟨"test", "grp", [], ""⟩ =
       (Except.error
         "realm owner is not specified neither in ownerReference nor in spec for grp", []) :=
  ⟨⟨by decide,
    by
      have h := C2_no_owner_no_fallback_fails.1
        (fun nn => Except.ok ⟨nn.ns, nn.name, true, "ss1"⟩)
        ⟨"test", "", [⟨"Deployment", "foo"⟩], ⟨"", ""⟩⟩ (by decide) rfl
      simpa using h⟩,
   by
      have h := C2_no_owner_no_fallback_fails.2
        (fun nn => Except.ok ⟨nn.ns, nn.name, [], ⟨"rn", ""⟩⟩)
        ⟨"test", "grp", [], ""⟩ (by simp) rfl
      simpa using h⟩

/-- C7: when the parent is connected, its credential secret resolves,
the cached token object is absent and the authentication handshake
fails, client provisioning returns an error that names the failing
step: its message is the handshake error wrapped as "could not get
token: ...", so it contains "could not get token". -/
theorem C7_could_not_get_token (env : helper.ProvisionEnv) (s e : String)
    (hconn : env.connected = true)
    (hsecret : env.secretLookup = Except.ok s)
    (hcache : env.cachedToken = none)
    (hhs : env.handshake = Except.error e) :
    helper.CreateKeycloakClientForRealm env = Except.error ("could not get token: " ++ e) ∧
    ∃ rest, ("could not get token: " ++ e) = "could not get token" ++ rest := by
  constructor
  · unfold helper.CreateKeycloakClientForRealm
    rw [hconn, hsecret, hcache, hhs]
    rfl
  · refine ⟨": " ++ e, ?_⟩
    rw [← String.append_assoc]
    rfl

/-- C7 witness: a connected parent with a resolved secret, no cached
token, and a failing handshake. -/
theorem C7_could_not_get_token_witness :
    ((⟨true, "k-url", Except.ok "secret-data", none, Except.error "fatal"⟩ :
        helper.ProvisionEnv).connected = true) ∧
    helper.CreateKeycloakClientForRealm
      ⟨true, "k-url", Except.ok "secret-data", none, Except.error "fatal"⟩ =
      Except.error "could not get token: fatal" :=
  ⟨rfl,
   by
     have h := (C7_could_not_get_token
       ⟨true, "k-url", Except.ok "secret-data", none, Except.error "fatal"⟩
       "secret-data" "fatal" rfl rfl rfl rfl).1
     simpa using h⟩

/-- C6: in a reconciliation where parent resolution succeeds but client
provisioning fails with cause "fatal", the sync fails with exactly the
message "unable to create keycloak client: fatal", that message is
written into the resource's status value, the failure counter is
incremented by the tracker (whose delay becomes the requeue delay), no
remote get/create/update/delete call is attempted, and (the status
write succeeding) the reconciliation returns no error. -/
theorem C6_client_provision_failure (inst : keycloakrealmcomponent.KeycloakRealmComponent)
    (h : keycloakrealmcomponent.HelperDeps) (tmo : Nat) (realm : helper.KeycloakRealm)
    (hown : h.getOrCreateRealmOwnerRef = Except.ok realm)
    (hcli : h.createKeycloakClientForRealm = Except.error "fatal")
    (hupd : h.updateStatusError = none) :
    (keycloakrealmcomponent.tryReconcile h inst).1 =
      some "unable to create keycloak client: fatal" ∧
    (keycloakrealmcomponent.Reconcile
        (keycloakrealmcomponent.GetInstanceResult.ok inst) h tmo).finalInstance =
      some { inst with status := { value := "unable to create keycloak client: fatal",
                                   failureCount := inst.status.failureCount + 1 } } ∧
    (keycloakrealmcomponent.Reconcile
        (keycloakrealmcomponent.GetInstanceResult.ok inst) h tmo).trace = [] ∧
    (keycloakrealmcomponent.Reconcile
        (keycloakrealmcomponent.GetInstanceResult.ok inst) h tmo).requeueAfter =
      helper.failureDelay (inst.status.failureCount + 1) ∧
    (keycloakrealmcomponent.Reconcile
        (keycloakrealmcomponent.GetInstanceResult.ok inst) h tmo).resultErr = none := by
  have htr : keycloakrealmcomponent.tryReconcile h inst =
      (some "unable to create keycloak client: fatal", inst, []) := by
    unfold keycloakrealmcomponent.tryReconcile
    rw [hown, hcli]
    rfl
  refine ⟨by rw [htr], ?_, ?_, ?_, ?_⟩ <;>
    · simp only [keycloakrealmcomponent.Reconcile]
      try rw [htr]
      try simp [hupd, helper.SetFailureCount]

/-- C6 witness: a concrete component instance with failing
provisioning. -/
theorem C6_client_provision_failure_witness :
    (({ getOrCreateRealmOwnerRef := Except.ok ⟨"ns", "test", [], ⟨"ns.test", ""⟩⟩,
        createKeycloakClientForRealm := Except.error "fatal",
        updateStatusError := none } :
          keycloakrealmcomponent.HelperDeps).createKeycloakClientForRealm =
      Except.error "fatal") ∧
    (keycloakrealmcomponent.tryReconcile
      { getOrCreateRealmOwnerRef := Except.ok ⟨"ns", "test", [], ⟨"ns.test", ""⟩⟩,
        createKeycloakClientForRealm := Except.error "fatal",
        updateStatusError := none }
      { deletionTimestampSet := false, finalizers := [],
        spec := { name := "cmp1", config := [], providerID := "", providerType := "" },
        status := { value := "", failureCount := 0 } }).1 =
      some "unable to create keycloak client: fatal" :=
  ⟨rfl,
   (C6_client_provision_failure
     { deletionTimestampSet := false, finalizers := [],
       spec := { name := "cmp1", config := [], providerID := "", providerType := "" },
       status := { value := "", failureCount := 0 } }
     { getOrCreateRealmOwnerRef := Except.ok ⟨"ns", "test", [], ⟨"ns.test", ""⟩⟩,
       createKeycloakClientForRealm := Except.error "fatal",
       updateStatusError := none }
     3600 ⟨"ns", "test", [], ⟨"ns.test", ""⟩⟩ rfl rfl rfl).1⟩

/-- C9: a per-resource sync failure never becomes the `Reconcile` return
error.  When `tryReconcile` fails but the status update succeeds,
`Reconcile` returns no error, and the failure is surfaced only through
the status value (set to the sync error message), the incremented
failure counter, and the backoff requeue delay; conversely the return
error is non-nil only when the initial store read or the status update
itself failed. -/
theorem C9_sync_failure_not_surfaced :
    (∀ (inst : keycloakrealmcomponent.KeycloakRealmComponent)
       (h : keycloakrealmcomponent.HelperDeps) (tmo : Nat) (e : String),
       (keycloakrealmcomponent.tryReconcile h inst).1 = some e →
       h.updateStatusError = none →
       (keycloakrealmcomponent.Reconcile
           (keycloakrealmcomponent.GetInstanceResult.ok inst) h tmo).resultErr = none ∧
       ∃ inst2, (keycloakrealmcomponent.Reconcile
           (keycloakrealmcomponent.GetInstanceResult.ok inst) h tmo).finalInstance = some inst2 ∧
         inst2.status.value = e ∧
         inst2.status.failureCount =
           (keycloakrealmcomponent.tryReconcile h inst).2.1.status.failureCount + 1 ∧
         (keycloakrealmcomponent.Reconcile
             (keycloakrealmcomponent.GetInstanceResult.ok inst) h tmo).requeueAfter =
           helper.failureDelay
             ((keycloakrealmcomponent.tryReconcile h inst).2.1.status.failureCount + 1)) ∧
    (∀ (g : keycloakrealmcomponent.GetInstanceResult)
       (h : keycloakrealmcomponent.HelperDeps) (tmo : Nat),
       (keycloakrealmcomponent.Reconcile g h tmo).resultErr ≠ none →
       (∃ m, g = keycloakrealmcomponent.GetInstanceResult.error m) ∨
         h.updateStatusError ≠ none) := by
  constructor
  · intro inst h tmo e hsync hupd
    rcases hEq : keycloakrealmcomponent.tryReconcile h inst with ⟨o, inst1, trace⟩
    rw [hEq] at hsync
    simp only at hsync
    subst hsync
    simp only [keycloakrealmcomponent.Reconcile, hEq, hupd, helper.SetFailureCount]
    exact ⟨trivial, _, rfl, rfl, rfl, trivial⟩
  · intro g h tmo hne
    cases g with
    | ok inst =>
      cases hu : h.updateStatusError with
      | none =>
        exfalso
        apply hne
        simp only [keycloakrealmcomponent.Reconcile, hu]
      | some m => exact Or.inr (by simp [hu])
    | notFound =>
      exfalso
      apply hne
      simp only [keycloakrealmcomponent.Reconcile]
    | error m => exact Or.inl ⟨m, rfl⟩

/-- C9 witness: a sync failing through a missing realm owner with a
succeeding status update, and a failing status update on the converse
side. -/
theorem C9_sync_failure_not_surfaced_witness :
    ((keycloakrealmcomponent.tryReconcile
        { getOrCreateRealmOwnerRef := Except.error "no owner",
          createKeycloakClientForRealm := Except.error "unused",
          updateStatusError := none }
        { deletionTimestampSet := false, finalizers := [],
          spec := { name := "cmp1", config := [], providerID := "", providerType := "" },
          status := { value := "", failureCount := 0 } }).1 =
        some "unable to get realm owner ref: no owner" ∧
     (keycloakrealmcomponent.Reconcile
        (keycloakrealmcomponent.GetInstanceResult.ok
          { deletionTimestampSet := false, finalizers := [],
            spec := { name := "cmp1", config := [], providerID := "", providerType := "" },
            status := { value := "", failureCount := 0 } })
        { getOrCreateRealmOwnerRef := Except.error "no owner",
          createKeycloakClientForRealm := Except.error "unused",
          updateStatusError := none } 3600).resultErr = none) ∧
    ((keycloakrealmcomponent.Reconcile
        (keycloakrealmcomponent.GetInstanceResult.error "boom")
        { getOrCreateRealmOwnerRef := Except.error "no owner",
          createKeycloakClientForRealm := Except.error "unused",
          updateStatusError := none } 3600).resultErr ≠ none ∧
     (∃ m, (keycloakrealmcomponent.GetInstanceResult.error "boom" :
         keycloakrealmcomponent.GetInstanceResult) =
           keycloakrealmcomponent.GetInstanceResult.error m) ∨
       ({ getOrCreateRealmOwnerRef := Except.error "no owner",
          createKeycloakClientForRealm := Except.error "unused",
          updateStatusError := none } :
            keycloakrealmcomponent.HelperDeps).updateStatusError ≠ none) :=
  ⟨⟨rfl,
    (C9_sync_failure_not_surfaced.1
      { deletionTimestampSet := false, finalizers := [],
        spec := { name := "cmp1", config := [], providerID := "", providerType := "" },
        status := { value := "", failureCount := 0 } }
      { getOrCreateRealmOwnerRef := Except.error "no owner",
        createKeycloakClientForRealm := Except.error "unused",
        updateStatusError := none }
      3600 "unable to get realm owner ref: no owner" rfl rfl).1⟩,
   Or.inl ⟨by simp [keycloakrealmcomponent.Reconcile],
     C9_sync_failure_not_surfaced.2
       (keycloakrealmcomponent.GetInstanceResult.error "boom")
       { getOrCreateRealmOwnerRef := Except.error "no owner",
         createKeycloakClientForRealm := Except.error "unused",
         updateStatusError := none }
       3600 (by simp [keycloakrealmcomponent.Reconcile])
       |>.resolve_right (by simp)⟩⟩

/-- C8: the create scenario of TestReconcile_Reconcile — for the child
client scope named scope1 in realm ns.test whose remote lookup returns
not-found, reconciliation creates the remote object, stores the
returned id "scope12" in the resource's status, sets the status value
to OK, returns no error, and sets the result's RequeueAfter to the
configured success reconcile timeout (3600). -/
theorem C8_clientscope_create_scenario :
    (keycloakclientscope.Reconcile
        (keycloakclientscope.GetInstanceResult.ok keycloakclientscope.testClientScope)
        keycloakclientscope.testHelperDeps 3600).resultErr = none ∧
    (keycloakclientscope.Reconcile
        (keycloakclientscope.GetInstanceResult.ok keycloakclientscope.testClientScope)
        keycloakclientscope.testHelperDeps 3600).requeueAfter = 3600 ∧
    ((keycloakclientscope.Reconcile
        (keycloakclientscope.GetInstanceResult.ok keycloakclientscope.testClientScope)
        keycloakclientscope.testHelperDeps 3600).finalInstance.map
      (fun i => (i.status.id, i.status.value, i.status.failureCount))) =
      some ("scope12", helper.statusOK, 0) :=
  ⟨rfl, rfl, rfl⟩
